import Mathlib

/-!
Shallow embedding of the investment backend (`backend.py`): the credential
store (users and verification codes), the auth service (token issuance and
resolution), the verification service, the market-data gateway and the HTTP
handlers, together with theorems checking the specification's claims.

Conventions of the embedding:
* timestamps are integers (seconds); `timedelta(minutes = m)` becomes `m * 60`;
* the database session is explicit state: a handler takes a `DB` and returns
  its result together with the `DB` as committed when the handler finishes;
* external collaborators (the password hasher, the RNG driving
  `random.choices`, SMTP delivery, the quote provider, yfinance, the LLM)
  are oracles passed as parameters;
* an HTTP 4xx/5xx response raised via `HTTPException` is an `Except.error`
  carrying the status code and the detail string from the source.
-/

namespace Backend

/-- A response raised through `HTTPException`: status code and detail message. -/
structure HTTPError where
  status_code : Nat
  detail : String
deriving DecidableEq

/-- A row of the `users` table (SQLAlchemy model `User`). -/
structure UserRow where
  id : Nat
  email : String
  username : String
  hashed_password : String
  is_active : Bool
  investment_preference : String
  risk_tolerance : String
deriving DecidableEq

/-- A row of the `verification_codes` table (SQLAlchemy model `VerificationCode`). -/
structure VerificationCode where
  email : String
  code : String
  created_at : Int
  expires_at : Int
deriving DecidableEq

/-- The relational store: the two tables the backend reads and writes. -/
structure DB where
  users : List UserRow
  codes : List VerificationCode
deriving DecidableEq

/-- The Pydantic response model `UserInDB` returned by `get_current_user`. -/
structure UserInDB where
  username : String
  email : String
  investment_preference : String
  risk_tolerance : String
deriving DecidableEq

/-- The Pydantic request model `UserCreate` consumed by `/register`. -/
structure UserCreate where
  email : String
  username : String
  password : String
  investment_preference : String
  risk_tolerance : String
deriving DecidableEq

/-- The Pydantic request model `EmailVerification` consumed by `/request-verification`. -/
structure EmailVerification where
  email : String
deriving DecidableEq

/-- The Pydantic request model `VerificationCheck` consumed by `/verify-email`. -/
structure VerificationCheck where
  email : String
  code : String
deriving DecidableEq

/-- The query `db.query(User).filter(User.username == username).first()`
(function `get_user` in the source). -/
def get_user (db : DB) (username : String) : Option UserRow :=
  db.users.find? (fun u => u.username == username)

/-- The query `db.query(User).filter(User.email == email).first()`. -/
def query_user_by_email (db : DB) (email : String) : Option UserRow :=
  db.users.find? (fun u => u.email == email)

/-- The query `db.query(VerificationCode).filter(VerificationCode.email == email).first()`. -/
def query_code_by_email (db : DB) (email : String) : Option VerificationCode :=
  db.codes.find? (fun c => c.email == email)

/-- Handler of `POST /verify-email` (`verify_email` in the source): look up the
pending code record for the email, reject with 400 when there is none, when the
submitted code differs, or when the record is past its expiry, in that order;
otherwise succeed.  The handler never writes to the database, so the state
component is returned unchanged. -/
def verify_email (verification : VerificationCheck) (now : Int) (db : DB) :
    Except HTTPError String × DB :=
  match query_code_by_email db verification.email with
  | none => (.error ⟨400, "인증 코드를 먼저 요청해주세요"⟩, db)
  | some code_record =>
    if code_record.code ≠ verification.code then
      (.error ⟨400, "잘못된 인증 코드입니다"⟩, db)
    else if code_record.expires_at < now then
      (.error ⟨400, "인증 코드가 만료되었습니다"⟩, db)
    else
      (.ok "이메일이 성공적으로 인증되었습니다", db)

/-- Handler of `POST /register` (`register` in the source): reject a duplicate
email, then a duplicate username, then a missing verification record, each with
HTTP 400 and with no write; otherwise delete the verification record, hash the
password through the oracle `hash`, insert the new user and commit. -/
def register (user : UserCreate) (hash : String → String) (db : DB) :
    Except HTTPError String × DB :=
  match query_user_by_email db user.email with
  | some _ => (.error ⟨400, "이미 등록된 이메일입니다"⟩, db)
  | none =>
    match get_user db user.username with
    | some _ => (.error ⟨400, "이미 사용 중인 사용자명입니다"⟩, db)
    | none =>
      match query_code_by_email db user.email with
      | none => (.error ⟨400, "이메일 인증이 완료되지 않았습니다"⟩, db)
      | some verification_record =>
        let db_user : UserRow :=
          { id := db.users.length + 1
            email := user.email
            username := user.username
            hashed_password := hash user.password
            is_active := true
            investment_preference := user.investment_preference
            risk_tolerance := user.risk_tolerance }
        (.ok "사용자가 성공적으로 등록되었습니다",
          { users := db.users ++ [db_user]
            codes := db.codes.erase verification_record })

/-- Alphabet of `string.ascii_uppercase + string.digits`, from which
`random.choices(..., k=6)` draws the verification code. -/
def code_alphabet : List Char := "ABCDEFGHIJKLMNOPQRSTUVWXYZ0123456789".toList

theorem code_alphabet_length : code_alphabet.length = 36 := rfl

/-- The expression `''.join(random.choices(string.ascii_uppercase + string.digits, k=6))`:
the RNG is the oracle `picks`, giving the six indices drawn into the alphabet. -/
def gen_code (picks : Fin 6 → Fin 36) : String :=
  ⟨(List.finRange 6).map (fun i => code_alphabet.get ((picks i).cast code_alphabet_length.symm))⟩

/-- Handler of `POST /request-verification` (`request_verification` in the
source): reject with 400 when a user already has the email; otherwise delete
every pending code row for the email, insert a fresh code expiring
`10 * 60` seconds from now, commit, and only then attempt the email send
(oracle `send_ok`); a failed send raises 500 after the commit. -/
def request_verification (email_verification : EmailVerification)
    (picks : Fin 6 → Fin 36) (now : Int) (send_ok : Bool) (db : DB) :
    Except HTTPError String × DB :=
  match query_user_by_email db email_verification.email with
  | some _ => (.error ⟨400, "이미 등록된 이메일입니다"⟩, db)
  | none =>
    let verification_code := gen_code picks
    let new_code : VerificationCode :=
      { email := email_verification.email
        code := verification_code
        created_at := now
        expires_at := now + 10 * 60 }
    let db' : DB :=
      { db with codes := db.codes.filter (fun c => c.email != email_verification.email) ++ [new_code] }
    if send_ok then
      (.ok "인증 코드가 이메일로 전송되었습니다", db')
    else
      (.error ⟨500, "인증 코드 전송에 실패했습니다. 나중에 다시 시도해 주세요."⟩, db')

/-- A decoded JWT claim set: the optional `"sub"` claim and the `"exp"` claim. -/
structure JWTPayload where
  sub : Option String
  exp : Int
deriving DecidableEq

/-- A signed token as `jose.jwt.encode` produces it: the claims, plus the key
the HMAC signature was formed with (verification succeeds exactly when the
verifier's key equals it). -/
structure JWT where
  payload : JWTPayload
  signed_with : String
deriving DecidableEq

/-- The constant `ACCESS_TOKEN_EXPIRE_MINUTES = 30`. -/
def ACCESS_TOKEN_EXPIRE_MINUTES : Int := 30

/-- The function `create_access_token(data, expires_delta)`: copy the data
(here its `"sub"` claim), set `exp` to now plus the given delta — or plus
`timedelta(minutes=15)` when no delta is supplied — and sign with the secret. -/
def create_access_token (sub : Option String) (expires_delta : Option Int)
    (now : Int) (secret : String) : JWT :=
  let expire : Int :=
    match expires_delta with
    | some delta => now + delta
    | none => now + 15 * 60
  { payload := { sub := sub, exp := expire }, signed_with := secret }

/-- The call `jwt.decode(token, SECRET_KEY, algorithms=[ALGORITHM])`: `none`
models the `JWTError` raised on a signature formed with a different key or on
an `exp` claim before the current time. -/
def jwt_decode (token : JWT) (secret : String) (now : Int) : Option JWTPayload :=
  if token.signed_with ≠ secret then none
  else if token.payload.exp < now then none
  else some token.payload

/-- The FastAPI dependency `get_current_user`: decode the bearer token, fail
with the 401 `credentials_exception` when decoding fails, when the `"sub"`
claim is absent, or when no user row has that username; otherwise return the
user's data. -/
def get_current_user (token : JWT) (secret : String) (now : Int) (db : DB) :
    Except HTTPError UserInDB :=
  let credentials_exception : HTTPError := ⟨401, "Could not validate credentials"⟩
  match jwt_decode token secret now with
  | none => .error credentials_exception
  | some payload =>
    match payload.sub with
    | none => .error credentials_exception
    | some username =>
      match get_user db username with
      | none => .error credentials_exception
      | some user =>
        .ok { username := user.username
              email := user.email
              investment_preference := user.investment_preference
              risk_tolerance := user.risk_tolerance }

/-- The function `authenticate_user`: look the user up by username and check
the password against the stored hash through the oracle `verify` (passlib's
`pwd_context.verify`); `none` models the `False` returned on failure. -/
def authenticate_user (db : DB) (username password : String)
    (verify : String → String → Bool) : Option UserRow :=
  match get_user db username with
  | none => none
  | some user => if verify password user.hashed_password then some user else none

/-- Handler of `POST /token` (`login` in the source): authenticate, reject with
400 on failure, else issue an access token for the username with an explicit
`ACCESS_TOKEN_EXPIRE_MINUTES`-minute expiry. -/
def login (username password : String) (verify : String → String → Bool)
    (now : Int) (secret : String) (db : DB) : Except HTTPError JWT :=
  match authenticate_user db username password verify with
  | none => .error ⟨400, "Incorrect username or password"⟩
  | some user =>
    .ok (create_access_token (some user.username) (some (ACCESS_TOKEN_EXPIRE_MINUTES * 60)) now secret)

/-- An outbound call to a third-party service made while handling a request. -/
inductive UpstreamCall where
  | exchangeRate
  | historicalRates
  | news
  | model
deriving DecidableEq

/-- A daily bar as yfinance returns it: its date (as a day index) and close. -/
structure RateRow where
  date : Int
  close : ℚ
deriving DecidableEq

/-- The function `get_historical_rates(days)`: ask yfinance (oracle `history`)
for the window of the last `days` days and return the `Close` column as a
list; any exception becomes HTTP 500. -/
def get_historical_rates (history : Except Unit (List RateRow)) :
    Except HTTPError (List ℚ) :=
  match history with
  | .error _ => .error ⟨500, "Failed to fetch historical rates"⟩
  | .ok rows => .ok (rows.map (fun r => r.close))

/-- Successful response body of `GET /advanced_investment_advice`. -/
structure AdviceResponse where
  current_rate : ℚ
  historical_rates : List ℚ
  advice : String
deriving DecidableEq

/-- Endpoint `GET /advanced_investment_advice` (`get_investment_advice` in the
source), including the FastAPI dependency resolution that precedes the handler
body: a missing bearer token is rejected by `OAuth2PasswordBearer` with 401,
an invalid one by `get_current_user` with 401, and only then does the body run,
calling the exchange-rate gateway, the historical-rate gateway, and the advice
generator (news lookup plus two model invocations) in order.  The second
component records the upstream calls performed, in order. -/
def get_investment_advice (token : Option JWT) (secret : String) (now : Int)
    (db : DB) (exchange : Except Unit ℚ) (history : Except Unit (List RateRow))
    (generate : UserInDB → ℚ → List ℚ → Except Unit String) :
    Except HTTPError AdviceResponse × List UpstreamCall :=
  match token with
  | none => (.error ⟨401, "Not authenticated"⟩, [])
  | some t =>
    match get_current_user t secret now db with
    | .error e => (.error e, [])
    | .ok current_user =>
      match exchange with
      | .error _ => (.error ⟨500, "Failed to fetch exchange rate"⟩, [.exchangeRate])
      | .ok current_rate =>
        match get_historical_rates history with
        | .error e => (.error e, [.exchangeRate, .historicalRates])
        | .ok historical_rates =>
          match generate current_user current_rate historical_rates with
          | .error _ =>
            (.error ⟨500, "Failed to generate investment advice"⟩,
              [.exchangeRate, .historicalRates, .news, .model])
          | .ok advice =>
            (.ok { current_rate := current_rate
                   historical_rates := historical_rates
                   advice := advice },
              [.exchangeRate, .historicalRates, .news, .model, .model])

/-- The Pydantic model `Investment` after validation: a positive amount and a
positive number of days. -/
structure Investment where
  amount : ℚ
  days : ℤ
deriving DecidableEq

/-- Field validator `amount_must_be_positive` of `Investment`. -/
def amount_must_be_positive (v : ℚ) : Except String ℚ :=
  if v ≤ 0 then .error "Investment amount must be greater than 0" else .ok v

/-- Field validator `days_must_be_positive` of `Investment`. -/
def days_must_be_positive (v : ℤ) : Except String ℤ :=
  if v ≤ 0 then .error "Investment period must be greater than 0 days" else .ok v

/-- Pydantic validation of the `/calculate` request body: both field
validators must accept before an `Investment` reaches the handler. -/
def Investment.validate (amount : ℚ) (days : ℤ) : Except String Investment := do
  let a ← amount_must_be_positive amount
  let d ← days_must_be_positive days
  pure ⟨a, d⟩

/-- Handler body of `POST /calculate` (`calculate_investment` in the source):
`investment.amount * (1 + 0.05) ** (investment.days / 365)`, real-number
exponentiation of the Python float expression. -/
noncomputable def calculate_investment (investment : Investment) : ℝ :=
  (investment.amount : ℝ) * (1 + 0.05) ^ ((investment.days : ℝ) / 365)

/-- Endpoint `POST /calculate`, validation included; the second component is
the (always empty) list of upstream calls the handler performs. -/
noncomputable def calculate_endpoint (amount : ℚ) (days : ℤ) :
    Except String ℝ × List UpstreamCall :=
  match Investment.validate amount days with
  | .error e => (.error e, [])
  | .ok investment => (.ok (calculate_investment investment), [])

/-! ### Helper lemmas -/

theorem verify_email_db_eq (verification : VerificationCheck) (now : Int) (db : DB) :
    (verify_email verification now db).2 = db := by
  cases h : query_code_by_email db verification.email with
  | none => simp [verify_email, h]
  | some r =>
    by_cases hc : r.code ≠ verification.code
    · simp [verify_email, h, hc]
    · by_cases he : r.expires_at < now <;> simp [verify_email, h, hc, he]

theorem find?_email_erase_eq_none {l : List VerificationCode} {r : VerificationCode}
    {e : String} (hp : l.Pairwise (fun a b => a.email ≠ b.email))
    (hf : l.find? (fun c => c.email == e) = some r) :
    (l.erase r).find? (fun c => c.email == e) = none := by
  induction l with
  | nil => simp at hf
  | cons a t ih =>
    rcases List.pairwise_cons.mp hp with ⟨ha, ht⟩
    by_cases hae : (a.email == e) = true
    · have hra : a = r := by
        have hf' : some a = some r := by
          rw [List.find?_cons] at hf
          simpa [hae] using hf
        exact Option.some_inj.mp hf'
      subst hra
      rw [List.erase_cons_head, List.find?_eq_none]
      intro x hx
      have hne : a.email ≠ x.email := ha x hx
      have hre : a.email = e := by simpa using hae
      simp [hre ▸ hne.symm]
    · have hne : (a.email == e) = false := by simpa using hae
      have hf' : t.find? (fun c => c.email == e) = some r := by
        rw [List.find?_cons] at hf
        simpa [hne] using hf
      have hra : ¬ (a == r) = true := by
        intro hcontra
        have hr := List.find?_some hf'
        have : a = r := by simpa using hcontra
        rw [← this] at hr
        simp [hr] at hne
      rw [List.erase_cons_tail]
      · rw [List.find?_cons]
        simpa [hne] using ih ht hf'
      · simpa using hra

theorem get_current_user_cases (token : JWT) (secret : String) (now : Int) (db : DB) :
    (∃ u, get_current_user token secret now db = .ok u) ∨
    get_current_user token secret now db = .error ⟨401, "Could not validate credentials"⟩ := by
  cases hd : jwt_decode token secret now with
  | none => exact Or.inr (by simp [get_current_user, hd])
  | some payload =>
    cases hs : payload.sub with
    | none => exact Or.inr (by simp [get_current_user, hd, hs])
    | some username =>
      cases hu : get_user db username with
      | none => exact Or.inr (by simp [get_current_user, hd, hs, hu])
      | some user =>
        exact Or.inl ⟨⟨user.username, user.email, user.investment_preference, user.risk_tolerance⟩,
          by simp [get_current_user, hd, hs, hu]⟩

theorem get_current_user_error_is_401 (token : JWT) (secret : String) (now : Int)
    (db : DB) (e : HTTPError) (h : get_current_user token secret now db = .error e) :
    e = ⟨401, "Could not validate credentials"⟩ := by
  rcases get_current_user_cases token secret now db with ⟨u, hu⟩ | he
  · rw [hu] at h
    exact absurd h (by simp)
  · rw [he] at h
    injection h with h'
    exact h'.symm

theorem length_le_of_sorted_in_window (l : List Int) (lo : Int) (n : Nat)
    (hs : l.Pairwise (· < ·)) (hb : ∀ x ∈ l, lo ≤ x ∧ x < lo + n) :
    l.length ≤ n := by
  induction l generalizing lo n with
  | nil => simp
  | cons x t ih =>
    rcases List.pairwise_cons.mp hs with ⟨hx, ht⟩
    obtain ⟨hlo, hhi⟩ := hb x (by simp)
    obtain ⟨m, rfl⟩ : ∃ m, n = m + 1 := by
      cases n with
      | zero => omega
      | succ m => exact ⟨m, rfl⟩
    have hlen : t.length ≤ m := by
      refine ih (x + 1) m ht ?_
      intro y hy
      have h1 := hx y hy
      have h2 := hb y (by simp [hy])
      omega
    simpa using Nat.succ_le_succ hlen

/-! ### Claim theorems -/

/-- Claim C5: the `/verify-email` handler fails with the no-pending-code error
when no record exists for the email, with the mismatch error when the record's
code differs from the submitted one (regardless of expiry), with the expiry
error when the matching code is past `expires_at`, and succeeds otherwise —
the checks applied in exactly that order. -/
theorem verify_email_check_order (verification : VerificationCheck) (now : Int) (db : DB) :
    (query_code_by_email db verification.email = none →
      (verify_email verification now db).1 = .error ⟨400, "인증 코드를 먼저 요청해주세요"⟩) ∧
    (∀ r, query_code_by_email db verification.email = some r → r.code ≠ verification.code →
      (verify_email verification now db).1 = .error ⟨400, "잘못된 인증 코드입니다"⟩) ∧
    (∀ r, query_code_by_email db verification.email = some r → r.code = verification.code →
      r.expires_at < now →
      (verify_email verification now db).1 = .error ⟨400, "인증 코드가 만료되었습니다"⟩) ∧
    (∀ r, query_code_by_email db verification.email = some r → r.code = verification.code →
      now ≤ r.expires_at →
      (verify_email verification now db).1 = .ok "이메일이 성공적으로 인증되었습니다") := by
  refine ⟨?_, ?_, ?_, ?_⟩
  · intro h; simp [verify_email, h]
  · intro r hr hne; simp [verify_email, hr, hne]
  · intro r hr he hexp; simp [verify_email, hr, he, hexp]
  · intro r hr he hle
    have hnl : ¬ (r.expires_at < now) := not_lt.mpr hle
    simp [verify_email, hr, he, hnl]

/-- Witness for C5: on a store holding the code `ABC123` for `a@b.c` expiring
at time 600, all four branches are exercised at concrete inputs. -/
theorem verify_email_check_order_witness :
    (verify_email ⟨"x@y.z", "ABC123"⟩ 0 ⟨[], [⟨"a@b.c", "ABC123", 0, 600⟩]⟩).1 =
      .error ⟨400, "인증 코드를 먼저 요청해주세요"⟩ ∧
    (verify_email ⟨"a@b.c", "WRONG0"⟩ 0 ⟨[], [⟨"a@b.c", "ABC123", 0, 600⟩]⟩).1 =
      .error ⟨400, "잘못된 인증 코드입니다"⟩ ∧
    (verify_email ⟨"a@b.c", "ABC123"⟩ 601 ⟨[], [⟨"a@b.c", "ABC123", 0, 600⟩]⟩).1 =
      .error ⟨400, "인증 코드가 만료되었습니다"⟩ ∧
    (verify_email ⟨"a@b.c", "ABC123"⟩ 300 ⟨[], [⟨"a@b.c", "ABC123", 0, 600⟩]⟩).1 =
      .ok "이메일이 성공적으로 인증되었습니다" :=
  ⟨(verify_email_check_order ⟨"x@y.z", "ABC123"⟩ 0 _).1 (by decide),
   (verify_email_check_order ⟨"a@b.c", "WRONG0"⟩ 0 _).2.1 ⟨"a@b.c", "ABC123", 0, 600⟩
     (by decide) (by decide),
   (verify_email_check_order ⟨"a@b.c", "ABC123"⟩ 601 _).2.2.1 ⟨"a@b.c", "ABC123", 0, 600⟩
     (by decide) (by decide) (by decide),
   (verify_email_check_order ⟨"a@b.c", "ABC123"⟩ 300 _).2.2.2 ⟨"a@b.c", "ABC123", 0, 600⟩
     (by decide) (by decide) (by decide)⟩

/-- Claim C4: when the store already holds a user with the request's email,
`/register` fails with the duplicate-email 400 error and leaves the store
unchanged (so no user is created), whatever verification records exist; and
when the email is free but the username is taken, it fails with the
duplicate-username 400 error, again leaving the store unchanged. -/
theorem register_rejects_duplicates (user : UserCreate) (hash : String → String) (db : DB) :
    (∀ w, w ∈ db.users → w.email = user.email →
      register user hash db = (.error ⟨400, "이미 등록된 이메일입니다"⟩, db)) ∧
    (query_user_by_email db user.email = none →
      ∀ w, w ∈ db.users → w.username = user.username →
        register user hash db = (.error ⟨400, "이미 사용 중인 사용자명입니다"⟩, db)) := by
  constructor
  · intro w hw he
    have hsome : (query_user_by_email db user.email).isSome := by
      unfold query_user_by_email
      rw [List.find?_isSome]
      exact ⟨w, hw, by simp [he]⟩
    obtain ⟨w', hw'⟩ := Option.isSome_iff_exists.mp hsome
    simp [register, hw']
  · intro hnone w hw hu
    have hsome : (get_user db user.username).isSome := by
      unfold get_user
      rw [List.find?_isSome]
      exact ⟨w, hw, by simp [hu]⟩
    obtain ⟨w', hw'⟩ := Option.isSome_iff_exists.mp hsome
    simp [register, hnone, hw']

/-- Witness for C4: a store holding user `alice` with email `a@b.c` and a
fresh verification record for `a@b.c` rejects a second registration of the
same email, and rejects a fresh email reusing the username `alice`. -/
theorem register_rejects_duplicates_witness :
    register ⟨"a@b.c", "bob", "pw", "stocks", "low"⟩ (fun p => p)
        ⟨[⟨1, "a@b.c", "alice", "H", true, "stocks", "low"⟩],
         [⟨"a@b.c", "ABC123", 0, 600⟩]⟩ =
      (.error ⟨400, "이미 등록된 이메일입니다"⟩,
        ⟨[⟨1, "a@b.c", "alice", "H", true, "stocks", "low"⟩],
         [⟨"a@b.c", "ABC123", 0, 600⟩]⟩) ∧
    register ⟨"new@b.c", "alice", "pw", "stocks", "low"⟩ (fun p => p)
        ⟨[⟨1, "a@b.c", "alice", "H", true, "stocks", "low"⟩],
         [⟨"a@b.c", "ABC123", 0, 600⟩]⟩ =
      (.error ⟨400, "이미 사용 중인 사용자명입니다"⟩,
        ⟨[⟨1, "a@b.c", "alice", "H", true, "stocks", "low"⟩],
         [⟨"a@b.c", "ABC123", 0, 600⟩]⟩) :=
  ⟨(register_rejects_duplicates ⟨"a@b.c", "bob", "pw", "stocks", "low"⟩ (fun p => p) _).1
      ⟨1, "a@b.c", "alice", "H", true, "stocks", "low"⟩ (by decide) (by decide),
   (register_rejects_duplicates ⟨"new@b.c", "alice", "pw", "stocks", "low"⟩ (fun p => p) _).2
      (by decide) ⟨1, "a@b.c", "alice", "H", true, "stocks", "low"⟩ (by decide) (by decide)⟩

/-- Claim C9: a successful `/verify-email` leaves the stored verification
record untouched (the handler never writes the store), so repeating the check
any number of times keeps succeeding with the same result, until a successful
`/register` for that email deletes the record from the store. -/
theorem verify_email_preserves_code_record (verification : VerificationCheck) (now : Int)
    (db : DB) (n : Nat) (user : UserCreate) (hash : String → String) :
    (verify_email verification now db).2 = db ∧
    (fun s => (verify_email verification now s).2)^[n] db = db ∧
    (∀ m, (verify_email verification now db).1 = .ok m →
      (verify_email verification now ((verify_email verification now db).2)).1 = .ok m) ∧
    (db.codes.Pairwise (fun a b => a.email ≠ b.email) → user.email = verification.email →
      ∀ m, (register user hash db).1 = .ok m →
        query_code_by_email (register user hash db).2 verification.email = none) := by
  refine ⟨verify_email_db_eq _ _ _, ?_, ?_, ?_⟩
  · induction n with
    | zero => rfl
    | succ k ihk =>
      rw [Function.iterate_succ_apply]
      simpa [verify_email_db_eq] using ihk
  · intro m hm
    rw [verify_email_db_eq]
    exact hm
  · intro hpw heq m hok
    cases hu : query_user_by_email db user.email with
    | some w => simp [register, hu] at hok
    | none =>
      cases hn : get_user db user.username with
      | some w => simp [register, hu, hn] at hok
      | none =>
        cases hc : query_code_by_email db user.email with
        | none => simp [register, hu, hn, hc] at hok
        | some vr =>
          have hc' : db.codes.find? (fun c => c.email == user.email) = some vr := hc
          simp only [register, query_code_by_email, hu, hn, hc']
          apply find?_email_erase_eq_none hpw
          rw [← heq]
          exact hc'

/-- Witness for C9: with the store holding only a code for `a@b.c`, five
repeated checks leave it in place, and a successful registration consuming it
leaves no pending code for `a@b.c`. -/
theorem verify_email_preserves_code_record_witness :
    (fun s => (verify_email ⟨"a@b.c", "ABC123"⟩ 0 s).2)^[5]
        ⟨[], [⟨"a@b.c", "ABC123", 0, 600⟩]⟩ = ⟨[], [⟨"a@b.c", "ABC123", 0, 600⟩]⟩ ∧
    query_code_by_email
        (register ⟨"a@b.c", "alice", "pw", "stocks", "low"⟩ (fun p => p)
          ⟨[], [⟨"a@b.c", "ABC123", 0, 600⟩]⟩).2 "a@b.c" = none :=
  ⟨(verify_email_preserves_code_record ⟨"a@b.c", "ABC123"⟩ 0
      ⟨[], [⟨"a@b.c", "ABC123", 0, 600⟩]⟩ 5 ⟨"a@b.c", "alice", "pw", "stocks", "low"⟩
      (fun p => p)).2.1,
   (verify_email_preserves_code_record ⟨"a@b.c", "ABC123"⟩ 0
      ⟨[], [⟨"a@b.c", "ABC123", 0, 600⟩]⟩ 5 ⟨"a@b.c", "alice", "pw", "stocks", "low"⟩
      (fun p => p)).2.2.2 (by decide) (by decide) "사용자가 성공적으로 등록되었습니다" rfl⟩

/-- Claim C6: `/request-verification` rejects an already-registered email with
400 and no write; otherwise it replaces every pending code row for the email
by a fresh one — a 6-character code over the upper-case-plus-digits alphabet —
expiring `10 * 60` seconds from now, succeeds when the email send succeeds,
and fails with 500 when the send fails. -/
theorem request_verification_spec (email_verification : EmailVerification)
    (picks : Fin 6 → Fin 36) (now : Int) (send_ok : Bool) (db : DB) :
    (∀ w, w ∈ db.users → w.email = email_verification.email →
      request_verification email_verification picks now send_ok db =
        (.error ⟨400, "이미 등록된 이메일입니다"⟩, db)) ∧
    (query_user_by_email db email_verification.email = none →
      (request_verification email_verification picks now send_ok db).2.users = db.users ∧
      (request_verification email_verification picks now send_ok db).2.codes =
        db.codes.filter (fun c => c.email != email_verification.email) ++
          [⟨email_verification.email, gen_code picks, now, now + 10 * 60⟩] ∧
      (gen_code picks).length = 6 ∧
      (∀ ch ∈ (gen_code picks).toList, ch ∈ code_alphabet) ∧
      (send_ok = true →
        (request_verification email_verification picks now send_ok db).1 =
          .ok "인증 코드가 이메일로 전송되었습니다") ∧
      (send_ok = false →
        (request_verification email_verification picks now send_ok db).1 =
          .error ⟨500, "인증 코드 전송에 실패했습니다. 나중에 다시 시도해 주세요."⟩)) := by
  constructor
  · intro w hw he
    have hsome : (query_user_by_email db email_verification.email).isSome := by
      unfold query_user_by_email
      rw [List.find?_isSome]
      exact ⟨w, hw, by simp [he]⟩
    obtain ⟨w', hw'⟩ := Option.isSome_iff_exists.mp hsome
    simp [request_verification, hw']
  · intro h
    refine ⟨?_, ?_, ?_, ?_, ?_, ?_⟩
    · cases send_ok <;> simp [request_verification, h]
    · cases send_ok <;> simp [request_verification, h]
    · rfl
    · intro ch hch
      obtain ⟨i, hi, hrfl⟩ := List.mem_map.mp hch
      rw [← hrfl]
      exact List.get_mem _ _ _
    · intro hs
      subst hs
      simp [request_verification, h]
    · intro hs
      subst hs
      simp [request_verification, h]

/-- Witness for C6: a taken email is rejected; on a free email with the
all-zero RNG the stored code is `AAAAAA` with expiry 600, success and failure
of the send give 200 and 500 respectively. -/
theorem request_verification_spec_witness :
    request_verification ⟨"a@b.c"⟩ (fun _ => 0) 0 true
        ⟨[⟨1, "a@b.c", "alice", "H", true, "stocks", "low"⟩], []⟩ =
      (.error ⟨400, "이미 등록된 이메일입니다"⟩,
        ⟨[⟨1, "a@b.c", "alice", "H", true, "stocks", "low"⟩], []⟩) ∧
    (request_verification ⟨"n@b.c"⟩ (fun _ => 0) 0 true ⟨[], []⟩).2.codes =
      [⟨"n@b.c", gen_code (fun _ => 0), 0, 0 + 10 * 60⟩] ∧
    (request_verification ⟨"n@b.c"⟩ (fun _ => 0) 0 false ⟨[], []⟩).1 =
      .error ⟨500, "인증 코드 전송에 실패했습니다. 나중에 다시 시도해 주세요."⟩ ∧
    (gen_code (fun _ => 0)).length = 6 :=
  ⟨(request_verification_spec ⟨"a@b.c"⟩ (fun _ => 0) 0 true _).1
      ⟨1, "a@b.c", "alice", "H", true, "stocks", "low"⟩ (by decide) (by decide),
   ((request_verification_spec ⟨"n@b.c"⟩ (fun _ => 0) 0 true ⟨[], []⟩).2 (by decide)).2.1,
   ((request_verification_spec ⟨"n@b.c"⟩ (fun _ => 0) 0 false ⟨[], []⟩).2 (by decide)).2.2.2.2.2 rfl,
   ((request_verification_spec ⟨"n@b.c"⟩ (fun _ => 0) 0 true ⟨[], []⟩).2 (by decide)).2.2.1⟩

/-- Claim C10: when the send fails, `/request-verification` raises 500 — but
the store has already been committed: any prior pending code for the email is
gone and the freshly generated code is present, because the database commit
precedes the send attempt. -/
theorem request_verification_delivery_failure_commits (email_verification : EmailVerification)
    (picks : Fin 6 → Fin 36) (now : Int) (db : DB)
    (h : query_user_by_email db email_verification.email = none) :
    (request_verification email_verification picks now false db).1 =
      .error ⟨500, "인증 코드 전송에 실패했습니다. 나중에 다시 시도해 주세요."⟩ ∧
    (⟨email_verification.email, gen_code picks, now, now + 10 * 60⟩ : VerificationCode) ∈
      (request_verification email_verification picks now false db).2.codes ∧
    (∀ c ∈ (request_verification email_verification picks now false db).2.codes,
      c.email = email_verification.email →
        c = ⟨email_verification.email, gen_code picks, now, now + 10 * 60⟩) := by
  have hres : (request_verification email_verification picks now false db).2.codes =
      db.codes.filter (fun c => c.email != email_verification.email) ++
        [⟨email_verification.email, gen_code picks, now, now + 10 * 60⟩] := by
    simp [request_verification, h]
  refine ⟨by simp [request_verification, h], ?_, ?_⟩
  · rw [hres]
    simp
  · intro c hc hce
    rw [hres] at hc
    rcases List.mem_append.mp hc with h1 | h2
    · have hbn := (List.mem_filter.mp h1).2
      rw [hce] at hbn
      simp at hbn
    · simpa using h2

/-- Witness for C10: on an empty store, a failed send for `n@b.c` returns 500
while the fresh code row is already committed. -/
theorem request_verification_delivery_failure_commits_witness :
    (request_verification ⟨"n@b.c"⟩ (fun _ => 0) 0 false ⟨[], []⟩).1 =
      .error ⟨500, "인증 코드 전송에 실패했습니다. 나중에 다시 시도해 주세요."⟩ ∧
    (⟨"n@b.c", gen_code (fun _ => 0), 0, 0 + 10 * 60⟩ : VerificationCode) ∈
      (request_verification ⟨"n@b.c"⟩ (fun _ => 0) 0 false ⟨[], []⟩).2.codes :=
  ⟨(request_verification_delivery_failure_commits ⟨"n@b.c"⟩ (fun _ => 0) 0 ⟨[], []⟩
      (by decide)).1,
   (request_verification_delivery_failure_commits ⟨"n@b.c"⟩ (fun _ => 0) 0 ⟨[], []⟩
      (by decide)).2.1⟩

/-- Claim C2, counterexample: with no explicit ttl, `create_access_token`
sets the expiry 15 minutes ahead, not 30 — the claimed 30-minute default
fails on the token issued at time 0 for `alice`. -/
theorem create_access_token_default_ttl_not_30 :
    (create_access_token (some "alice") none 0 "k").payload.exp = 15 * 60 ∧
    (15 * 60 : Int) ≠ 30 * 60 :=
  ⟨rfl, by decide⟩

/-- Claim C2 as amended: `create_access_token` signs a payload carrying the
subject and an expiry with the server secret; the default ttl when none is
supplied is 15 minutes, and the `/token` login endpoint explicitly passes an
`ACCESS_TOKEN_EXPIRE_MINUTES = 30`-minute ttl, so tokens it issues expire 30
minutes after issuance. -/
theorem create_access_token_spec (sub : Option String) (now delta : Int) (secret : String) :
    (create_access_token sub (some delta) now secret).payload.sub = sub ∧
    (create_access_token sub (some delta) now secret).payload.exp = now + delta ∧
    (create_access_token sub (some delta) now secret).signed_with = secret ∧
    (create_access_token sub none now secret).payload.sub = sub ∧
    (create_access_token sub none now secret).payload.exp = now + 15 * 60 ∧
    (create_access_token sub none now secret).signed_with = secret ∧
    (∀ username password verify db t,
      login username password verify now secret db = .ok t →
        t.payload.exp = now + ACCESS_TOKEN_EXPIRE_MINUTES * 60 ∧ t.signed_with = secret) := by
  refine ⟨rfl, rfl, rfl, rfl, rfl, rfl, ?_⟩
  intro username password verify db t h
  cases ha : authenticate_user db username password verify with
  | none => simp [login, ha] at h
  | some user =>
    simp [login, ha] at h
    rw [← h]
    exact ⟨rfl, rfl⟩

/-- Witness for C2 (amended): the default expiry at time 5 is `5 + 15 * 60`,
and a token issued through a successful login at time 5 expires at
`5 + 30 * 60` and is signed with the server secret. -/
theorem create_access_token_spec_witness :
    (create_access_token (some "alice") none 5 "k").payload.exp = 5 + 15 * 60 ∧
    (create_access_token (some "alice") (some (ACCESS_TOKEN_EXPIRE_MINUTES * 60)) 5 "k").payload.exp =
      5 + ACCESS_TOKEN_EXPIRE_MINUTES * 60 ∧
    (create_access_token (some "alice") (some (ACCESS_TOKEN_EXPIRE_MINUTES * 60)) 5 "k").signed_with =
      "k" :=
  ⟨(create_access_token_spec (some "alice") 5 0 "k").2.2.2.2.1,
   ((create_access_token_spec (some "alice") 5 0 "k").2.2.2.2.2.2 "alice" "pw"
      (fun _ _ => true) ⟨[⟨1, "a@b.c", "alice", "H", true, "stocks", "low"⟩], []⟩
      (create_access_token (some "alice") (some (ACCESS_TOKEN_EXPIRE_MINUTES * 60)) 5 "k")
      rfl).1,
   ((create_access_token_spec (some "alice") 5 0 "k").2.2.2.2.2.2 "alice" "pw"
      (fun _ _ => true) ⟨[⟨1, "a@b.c", "alice", "H", true, "stocks", "low"⟩], []⟩
      (create_access_token (some "alice") (some (ACCESS_TOKEN_EXPIRE_MINUTES * 60)) 5 "k")
      rfl).2⟩

/-- Claim C3: token resolution fails with the 401 credentials error on a
signature formed with a different key, on an expired `exp` claim, on a missing
`"sub"` claim, and on a subject naming no stored user; and for a token issued
for `alice` with a 30-minute ttl while user `alice` exists, resolution at
issuance time returns `alice`'s data and resolution at any time after the ttl
has elapsed fails with the 401 error. -/
theorem get_current_user_spec (token : JWT) (secret : String) (now t0 : Int)
    (db : DB) (u : UserRow) :
    (token.signed_with ≠ secret →
      get_current_user token secret now db = .error ⟨401, "Could not validate credentials"⟩) ∧
    (token.payload.exp < now →
      get_current_user token secret now db = .error ⟨401, "Could not validate credentials"⟩) ∧
    (∀ payload, jwt_decode token secret now = some payload → payload.sub = none →
      get_current_user token secret now db = .error ⟨401, "Could not validate credentials"⟩) ∧
    (∀ payload s, jwt_decode token secret now = some payload → payload.sub = some s →
      get_user db s = none →
      get_current_user token secret now db = .error ⟨401, "Could not validate credentials"⟩) ∧
    (get_user db "alice" = some u →
      get_current_user (create_access_token (some "alice") (some (30 * 60)) t0 secret)
          secret t0 db = .ok ⟨u.username, u.email, u.investment_preference, u.risk_tolerance⟩ ∧
      u.username = "alice" ∧
      (∀ later, t0 + 30 * 60 < later →
        get_current_user (create_access_token (some "alice") (some (30 * 60)) t0 secret)
            secret later db = .error ⟨401, "Could not validate credentials"⟩)) := by
  refine ⟨?_, ?_, ?_, ?_, ?_⟩
  · intro h
    have hd : jwt_decode token secret now = none := by simp [jwt_decode, h]
    simp [get_current_user, hd]
  · intro h
    have hd : jwt_decode token secret now = none := by simp [jwt_decode, h]
    simp [get_current_user, hd]
  · intro payload hd hsub
    simp [get_current_user, hd, hsub]
  · intro payload s hd hsub hu
    simp [get_current_user, hd, hsub, hu]
  · intro halice
    have hnl : ¬ (t0 + 1800 < t0) := by omega
    have hd : jwt_decode (create_access_token (some "alice") (some 1800) t0 secret)
        secret t0 = some ⟨some "alice", t0 + 1800⟩ := by
      simp [jwt_decode, create_access_token, hnl]
    refine ⟨by norm_num [get_current_user, hd, halice], ?_, ?_⟩
    · have halice' : db.users.find? (fun x => x.username == "alice") = some u := halice
      have hb := List.find?_some halice'
      simpa using hb
    · intro later hl
      have hl' : t0 + 1800 < later := by omega
      have hd2 : jwt_decode (create_access_token (some "alice") (some 1800) t0 secret)
          secret later = none := by
        simp [jwt_decode, create_access_token, hl']
      norm_num [get_current_user, hd2]

/-- Witness for C3: on a store holding user `alice`, a token signed with the
wrong key is rejected, the 30-minute token issued at time 0 resolves to
`alice` at time 0, and the same token is rejected at time 1801. -/
theorem get_current_user_spec_witness :
    get_current_user ⟨⟨some "alice", 1000⟩, "other"⟩ "k" 0
        ⟨[⟨1, "a@b.c", "alice", "H", true, "stocks", "low"⟩], []⟩ =
      .error ⟨401, "Could not validate credentials"⟩ ∧
    get_current_user (create_access_token (some "alice") (some (30 * 60)) 0 "k") "k" 0
        ⟨[⟨1, "a@b.c", "alice", "H", true, "stocks", "low"⟩], []⟩ =
      .ok ⟨"alice", "a@b.c", "stocks", "low"⟩ ∧
    get_current_user (create_access_token (some "alice") (some (30 * 60)) 0 "k") "k" 1801
        ⟨[⟨1, "a@b.c", "alice", "H", true, "stocks", "low"⟩], []⟩ =
      .error ⟨401, "Could not validate credentials"⟩ :=
  ⟨(get_current_user_spec ⟨⟨some "alice", 1000⟩, "other"⟩ "k" 0 0
      ⟨[⟨1, "a@b.c", "alice", "H", true, "stocks", "low"⟩], []⟩
      ⟨1, "a@b.c", "alice", "H", true, "stocks", "low"⟩).1 (by decide),
   ((get_current_user_spec ⟨⟨some "alice", 1000⟩, "other"⟩ "k" 0 0
      ⟨[⟨1, "a@b.c", "alice", "H", true, "stocks", "low"⟩], []⟩
      ⟨1, "a@b.c", "alice", "H", true, "stocks", "low"⟩).2.2.2.2 (by decide)).1,
   ((get_current_user_spec ⟨⟨some "alice", 1000⟩, "other"⟩ "k" 1801 0
      ⟨[⟨1, "a@b.c", "alice", "H", true, "stocks", "low"⟩], []⟩
      ⟨1, "a@b.c", "alice", "H", true, "stocks", "low"⟩).2.2.2.2 (by decide)).2.2 1801
        (by decide)⟩

/-- Claim C7: whenever `/advanced_investment_advice` is reached without a
bearer token, or with a token its resolution does not accept, the response is
the 401 authentication failure and the list of upstream calls performed during
the request is empty — neither the exchange-rate fetch, the historical-rate
fetch, the news search, nor a model invocation happens. -/
theorem advice_unauthenticated_no_upstream_calls (token : Option JWT) (secret : String)
    (now : Int) (db : DB) (exchange : Except Unit ℚ) (history : Except Unit (List RateRow))
    (generate : UserInDB → ℚ → List ℚ → Except Unit String)
    (hauth : ∀ t u, token = some t → get_current_user t secret now db ≠ .ok u) :
    ∃ e, get_investment_advice token secret now db exchange history generate = (.error e, []) ∧
      e.status_code = 401 := by
  cases token with
  | none => exact ⟨⟨401, "Not authenticated"⟩, rfl, rfl⟩
  | some t =>
    cases hres : get_current_user t secret now db with
    | error e =>
      have he := get_current_user_error_is_401 t secret now db e hres
      refine ⟨e, ?_, by rw [he]⟩
      simp [get_investment_advice, hres]
    | ok u => exact absurd hres (hauth t u rfl)

/-- Witness for C7: a request with no bearer token on an empty store gets a
401 response with no upstream call, whatever the upstream oracles would do. -/
theorem advice_unauthenticated_no_upstream_calls_witness :
    ∃ e, get_investment_advice none "k" 0 ⟨[], []⟩ (.error ()) (.error ())
        (fun _ _ _ => .error ()) = (.error e, []) ∧ e.status_code = 401 :=
  advice_unauthenticated_no_upstream_calls none "k" 0 ⟨[], []⟩ (.error ()) (.error ())
    (fun _ _ _ => .error ()) (by simp)

/-- Claim C8: `get_historical_rates` surfaces any upstream failure as the 500
error, and on success returns exactly the `Close` column of the rows the
provider returned; when the provider honours its contract — rows strictly
ascending by date, all dates within the requested `days`-day window — the
returned sequence is chronologically ascending (oldest first) and holds at
most `days` closes. -/
theorem get_historical_rates_spec (days : Nat) (now : Int)
    (history : Except Unit (List RateRow)) :
    (history = .error () →
      get_historical_rates history = .error ⟨500, "Failed to fetch historical rates"⟩) ∧
    (∀ rows, history = .ok rows →
      rows.Pairwise (fun a b => a.date < b.date) →
      (∀ r ∈ rows, now - days ≤ r.date ∧ r.date < now) →
      get_historical_rates history = .ok (rows.map (fun r => r.close)) ∧
      (rows.map (fun r => r.close)).length ≤ days) := by
  constructor
  · intro h
    rw [h]
    rfl
  · intro rows h hsort hbound
    refine ⟨by rw [h]; rfl, ?_⟩
    rw [List.length_map]
    have hsort' : (rows.map (fun r => r.date)).Pairwise (· < ·) := by
      rw [List.pairwise_map]
      exact hsort
    have hb : ∀ x ∈ rows.map (fun r => r.date), now - days ≤ x ∧ x < (now - days) + days := by
      intro x hx
      obtain ⟨r, hr, rfl⟩ := List.mem_map.mp hx
      have := hbound r hr
      omega
    have hlen := length_le_of_sorted_in_window (rows.map (fun r => r.date))
      (now - days) days hsort' hb
    simpa using hlen

/-- Witness for C8: two daily closes dated yesterday and the day before, both
within a 30-day window ending now, come back in order and within the bound;
an upstream error comes back as the 500 error. -/
theorem get_historical_rates_spec_witness :
    (get_historical_rates (.error ()) = .error ⟨500, "Failed to fetch historical rates"⟩) ∧
    (get_historical_rates (.ok [⟨-2, 5⟩, ⟨-1, 6⟩]) =
      .ok (([⟨-2, 5⟩, ⟨-1, 6⟩] : List RateRow).map (fun r => r.close)) ∧
     (([⟨-2, 5⟩, ⟨-1, 6⟩] : List RateRow).map (fun r => r.close)).length ≤ 30) :=
  ⟨(get_historical_rates_spec 30 0 (.error ())).1 rfl,
   (get_historical_rates_spec 30 0 (.ok [⟨-2, 5⟩, ⟨-1, 6⟩])).2 [⟨-2, 5⟩, ⟨-1, 6⟩]
     rfl (by decide) (by decide)⟩

/-- Bounds on the growth factor of the `/calculate` formula at 30 days:
`1.05 ^ (30/365)` lies strictly between 1.00401 and 1.00403. -/
theorem rpow_30_365_between :
    1.00401 < (1 + 0.05 : ℝ) ^ ((30 : ℝ) / 365) ∧
    (1 + 0.05 : ℝ) ^ ((30 : ℝ) / 365) < 1.00403 := by
  have hb : (0 : ℝ) ≤ 1 + 0.05 := by norm_num
  have h30 : ((30 : ℝ) / 365) = ((6 : ℝ) / 73) := by norm_num
  rw [h30]
  have hx : (0 : ℝ) < (1 + 0.05 : ℝ) ^ ((6 : ℝ) / 73) :=
    Real.rpow_pos_of_pos (by norm_num) _
  have key : ((1 + 0.05 : ℝ) ^ ((6 : ℝ) / 73)) ^ (73 : ℕ) = (1 + 0.05 : ℝ) ^ (6 : ℕ) := by
    rw [← Real.rpow_natCast ((1 + 0.05 : ℝ) ^ ((6 : ℝ) / 73)) 73, ← Real.rpow_mul hb,
      ← Real.rpow_natCast (1 + 0.05 : ℝ) 6]
    congr 1
    norm_num
  constructor
  · have h73 : (1.00401 : ℝ) ^ (73 : ℕ) < ((1 + 0.05 : ℝ) ^ ((6 : ℝ) / 73)) ^ (73 : ℕ) := by
      rw [key]
      norm_num
    exact lt_of_pow_lt_pow_left₀ 73 (le_of_lt hx) h73
  · have h73 : ((1 + 0.05 : ℝ) ^ ((6 : ℝ) / 73)) ^ (73 : ℕ) < (1.00403 : ℝ) ^ (73 : ℕ) := by
      rw [key]
      norm_num
    exact lt_of_pow_lt_pow_left₀ 73 (by norm_num) h73

theorem Investment.validate_pos {amount : ℚ} {days : ℤ} (ha : 0 < amount) (hd : 0 < days) :
    Investment.validate amount days = .ok ⟨amount, days⟩ := by
  have ha' : ¬ (amount ≤ 0) := not_le.mpr ha
  have hd' : ¬ (days ≤ 0) := not_le.mpr hd
  simp [Investment.validate, amount_must_be_positive, days_must_be_positive, ha', hd',
    Bind.bind, Except.bind, pure, Except.pure]

/-- Claim C1, counterexample: `/calculate` at amount 1000 and 30 days returns
`1000 * 1.05 ^ (30/365)`, and that value is NOT approximately 1004.06 — it is
not even within 0.03 of it (it lies below 1004.03). -/
theorem calculate_1000_30_not_approx_1004_06 :
    (calculate_endpoint 1000 30).1 = .ok ((1000 : ℝ) * (1 + 0.05) ^ ((30 : ℝ) / 365)) ∧
    ¬ |(1000 : ℝ) * (1 + 0.05) ^ ((30 : ℝ) / 365) - 1004.06| < 0.03 := by
  constructor
  · have h := Investment.validate_pos (by norm_num : (0 : ℚ) < 1000) (by norm_num : (0 : ℤ) < 30)
    norm_num [calculate_endpoint, h, calculate_investment]
  · intro hcontra
    rcases abs_lt.mp hcontra with ⟨h1, h2⟩
    have hb := rpow_30_365_between
    linarith [hb.2]

/-- Claim C1 as amended: for every amount > 0 and days > 0 the `/calculate`
endpoint succeeds with `amount * 1.05 ^ (days/365)` while performing no
upstream call, a non-positive amount or days is rejected by validation before
the handler runs, and at amount 1000, days 30 the result is approximately
1004.02 (within 0.01 of it). -/
theorem calculate_endpoint_spec (amount : ℚ) (days : ℤ) :
    (0 < amount → 0 < days →
      calculate_endpoint amount days =
        (.ok ((amount : ℝ) * (1 + 0.05) ^ ((days : ℝ) / 365)), [])) ∧
    ((amount ≤ 0 ∨ days ≤ 0) → ∃ msg, calculate_endpoint amount days = (.error msg, [])) ∧
    |(1000 : ℝ) * (1 + 0.05) ^ ((30 : ℝ) / 365) - 1004.02| < 0.01 := by
  refine ⟨?_, ?_, ?_⟩
  · intro ha hd
    simp [calculate_endpoint, Investment.validate_pos ha hd, calculate_investment]
  · intro h
    by_cases ha : amount ≤ 0
    · exact ⟨"Investment amount must be greater than 0",
        by simp [calculate_endpoint, Investment.validate, amount_must_be_positive, ha,
          Bind.bind, Except.bind]⟩
    · have hd : days ≤ 0 := by
        rcases h with h | h
        · exact absurd h ha
        · exact h
      exact ⟨"Investment period must be greater than 0 days",
        by simp [calculate_endpoint, Investment.validate, amount_must_be_positive,
          days_must_be_positive, ha, hd, Bind.bind, Except.bind, Functor.map, Except.map]⟩
  · have hb := rpow_30_365_between
    rw [abs_lt]
    constructor <;> linarith [hb.1, hb.2]

/-- Witness for C1 (amended): the endpoint succeeds at (1000, 30) with the
formula's value and rejects the non-positive amount 0. -/
theorem calculate_endpoint_spec_witness :
    calculate_endpoint 1000 30 =
      (.ok (((1000 : ℚ) : ℝ) * (1 + 0.05) ^ (((30 : ℤ) : ℝ) / 365)), []) ∧
    ∃ msg, calculate_endpoint 0 5 = (.error msg, []) :=
  ⟨(calculate_endpoint_spec 1000 30).1 (by norm_num) (by norm_num),
   (calculate_endpoint_spec 0 5).2.1 (Or.inl (by norm_num))⟩

end Backend
